import Mathlib

/-!
Shallow embedding of the random-playlist application (src/app.py) and proofs
about its credential lifecycle, sampling cache, sampler and playlist writer.

Modelling conventions:
* Python machine state (the Flask session, the module-level cache globals,
  the remote playlist) is passed explicitly.
* Randomness (random.randint, random.sample) is modelled by an explicit
  oracle argument: randint by a natural number constrained to the requested
  range in theorem hypotheses, random.sample by a stream of pick indices.
* Network interaction is modelled by a Library value (the provider's saved
  tracks) plus explicit counting of provider calls.
-/

/-- Track record as built by fetch_random_liked_songs (app.py lines 88-92):
id, name, and the single comma-joined artists string produced at line 87. -/
structure Track where
  id : String
  name : String
  artists : String
deriving DecidableEq, Repr

/-- Raw provider item before app.py line 87 joins the artist names:
the track id, its name and the ordered sequence of artist names. -/
structure RawTrack where
  id : String
  name : String
  artistNames : List String
deriving DecidableEq, Repr

/-- Embedding of app.py line 87: artists = ", ".join(names). -/
def joinArtists (names : List String) : String :=
  String.intercalate ", " names

/-- Build the Track dict of app.py lines 88-92 from a raw provider item. -/
def mkTrack (r : RawTrack) : Track :=
  { id := r.id, name := r.name, artists := joinArtists r.artistNames }

/-- Modelled from the spec: the primary artist of a track is the first name of
its artist_names sequence (or "Unknown" when empty). The source never computes
this value; it exists only so that claims phrased in terms of it can be stated. -/
def primaryArtist (r : RawTrack) : String :=
  r.artistNames.headD "Unknown"

/-- Modelled from the spec: number of distinct primary artists in a raw pool. -/
def uniquePrimaryArtistCount (pool : List RawTrack) : Nat :=
  (pool.map primaryArtist).dedup.length

/-- Embedding of the dict-building loop of app.py lines 545-549: scan the pool
in order, keeping the first-encountered track for each artists-string key.
The seen argument holds the keys already present in the dict. -/
def dedupAux (seen : List String) : List Track → List Track
  | [] => []
  | t :: ts =>
    if t.artists ∈ seen then dedupAux seen ts
    else t :: dedupAux (t.artists :: seen) ts

/-- Embedding of app.py lines 545-550: unique_artists dict keyed by the joined
artists string, values in first-encounter order (list(unique_artists.values())). -/
def dedupByArtists (songs : List Track) : List Track :=
  dedupAux [] songs

/-- Embedding of random.sample(pool, k) (app.py line 552): draw k elements
without replacement. The randomness is the picks stream; each step removes the
chosen element from the pool. Every possible sample outcome corresponds to some
picks stream, and every picks stream yields a valid outcome. -/
def sample {α : Type} : Nat → List α → List Nat → List α
  | 0, _, _ => []
  | _ + 1, [], _ => []
  | k + 1, a :: as, picks =>
    let i := picks.headD 0 % (a :: as).length
    (a :: as).getD i a :: sample k ((a :: as).eraseIdx i) picks.tail

/-- Decimal digit value of a character, none for a non-digit. -/
def digitValue (c : Char) : Option Nat :=
  if 48 ≤ c.toNat ∧ c.toNat ≤ 57 then some (c.toNat - 48) else none

/-- Accumulate decimal digits left to right; none on any non-digit. -/
def parseDigitsAux : List Char → Nat → Option Nat
  | [], acc => some acc
  | c :: cs, acc =>
    match digitValue c with
    | some d => parseDigitsAux cs (10 * acc + d)
    | none => none

/-- Python int() applied to a form string: an optional minus sign followed by
decimal digits yields the signed value, anything else raises ValueError
(modelled by none). -/
def pyInt (s : String) : Option Int :=
  match s.data with
  | [] => none
  | c :: cs =>
    if c = '-' then
      match cs with
      | [] => none
      | _ => (parseDigitsAux cs 0).map fun n => -(n : Int)
    else (parseDigitsAux (c :: cs) 0).map fun n => (n : Int)

/-- Embedding of app.py line 540: int(request.form.get("size", 10)).
A missing field yields the default 10; a present field is parsed by Python
int(), which raises ValueError on non-numeric input. -/
def parseSize (sizeForm : Option String) : Except Unit Int :=
  match sizeForm with
  | none => Except.ok 10
  | some s =>
    match pyInt s with
    | some n => Except.ok n
    | none => Except.error ()

/-- Flask session keys used by the preview/save workflow (app.py lines 553,
564, 572, 578, 593): absent key modelled by none. -/
structure Session where
  preview_ids : Option (List String)
  pending_ids : Option (List String)
deriving DecidableEq, Repr

/-- Outcome of the preview route: a rendered preview page with its selection,
the "No liked songs found." page, or an uncaught exception (ValueError from
int() at line 540, or from random.sample at line 552 on a negative size). -/
inductive PreviewOutcome where
  | shown (selection : List Track)
  | noSongs
  | raised
deriving DecidableEq, Repr

/-- Embedding of the preview route (app.py lines 534-556), given the track
pool returned by fetch_random_liked_songs. Returns the outcome and the updated
session. Note min size len is Python min on ints and random.sample raises when
its second argument is negative. -/
def preview (sess : Session) (songs : List Track) (sizeForm : Option String)
    (picks : List Nat) : PreviewOutcome × Session :=
  match parseSize sizeForm with
  | Except.error _ => (PreviewOutcome.raised, sess)
  | Except.ok size =>
    if songs = [] then (PreviewOutcome.noSongs, sess)
    else
      let filtered := dedupByArtists songs
      let k : Int := min size (filtered.length : Int)
      if k < 0 then (PreviewOutcome.raised, sess)
      else
        let selection := sample k.toNat filtered picks
        (PreviewOutcome.shown selection,
         { sess with preview_ids := some (selection.map Track.id) })

/-- Token dict as stored in session["token_info"] (app.py lines 42-50):
access token, refresh token and absolute expiry timestamp. -/
structure TokenInfo where
  access_token : String
  refresh_token : String
  expires_at : Int
deriving DecidableEq, Repr

/-- Embedding of token_info_needs_refresh (app.py lines 37-39). -/
def token_info_needs_refresh (t : TokenInfo) (now : Int) : Bool :=
  t.expires_at - now < 60

/-- Authentication failures of the credential lifecycle: a missing session
token (get_token returns None, callers redirect to login) and a provider
rejection of the refresh call (the spotipy exception propagates uncaught). -/
inductive AuthError where
  | notAuthenticated
  | refreshFailed
deriving DecidableEq, Repr

/-- Embedding of get_token (app.py lines 41-50). The session token and the
clock are explicit; refreshResult is the provider's answer to the single
refresh_access_token call (error = rejection, which the code does not catch).
Returns the route-visible result, the session token after the call, and the
number of refresh_access_token calls performed. -/
def get_token (stored : Option TokenInfo) (now : Int)
    (refreshResult : Except Unit TokenInfo) :
    Except AuthError TokenInfo × Option TokenInfo × Nat :=
  match stored with
  | none => (Except.error AuthError.notAuthenticated, none, 0)
  | some t =>
    if token_info_needs_refresh t now then
      match refreshResult with
      | Except.ok r => (Except.ok r, some r, 1)
      | Except.error _ => (Except.error AuthError.refreshFailed, some t, 1)
    else (Except.ok t, some t, 0)

/-- Provider-side library of saved tracks: the total count reported by the
meta call, and the item stored at each index (none models a null track,
skipped by the loop at app.py lines 84-86). -/
structure Library where
  total : Nat
  trackAt : Nat → Option Track

/-- Module-level cache globals CACHED_RANDOM_BATCH and
CACHED_RANDOM_TIMESTAMP (app.py lines 24-25): none models the initial None. -/
structure CacheState where
  batch : Option (List Track)
  timestamp : Int
deriving DecidableEq, Repr

/-- Embedding of app.py lines 69-74: the offset/limit choice of a cache
refresh. The rnd argument stands for random.randint(0, total - batchSize);
theorems constrain it to that inclusive range. -/
def chooseOffsetLimit (total batchSize rnd : Nat) : Nat × Nat :=
  if total ≤ batchSize ∨ total = 0 then
    (0, min batchSize (if total > 0 then total else 50))
  else
    (rnd, batchSize)

/-- Embedding of the paging loop of app.py lines 78-93: fetch the window in
pages of at most 50 items, skipping null tracks. Returns the accumulated
tracks and the number of provider calls issued by the loop. -/
def fetchPages (lib : Library) (offset remaining : Nat) : List Track × Nat :=
  if remaining = 0 then ([], 0)
  else
    let batch := min 50 remaining
    let page := (List.range batch).filterMap fun j => lib.trackAt (offset + j)
    let rest := fetchPages lib (offset + batch) (remaining - batch)
    (page ++ rest.1, rest.2 + 1)
termination_by remaining
decreasing_by omega

/-- Result of fetch_random_liked_songs: the returned track list, the cache
globals after the call, and the number of provider calls issued. -/
structure FetchResult where
  tracks : List Track
  state : CacheState
  networkCalls : Nat
deriving Repr

/-- Embedding of the cache-miss path of fetch_random_liked_songs (app.py
lines 66-99): one meta call to learn the total, then the offset/limit choice
and the paging loop; the fetched batch replaces the cache with timestamp now. -/
def refreshBatch (lib : Library) (now : Int) (rnd : Nat) (batchSize : Nat) :
    FetchResult :=
  let ol := chooseOffsetLimit lib.total batchSize rnd
  let fetched := fetchPages lib ol.1 ol.2
  { tracks := fetched.1
    state := { batch := some fetched.1, timestamp := now }
    networkCalls := 1 + fetched.2 }

/-- Embedding of fetch_random_liked_songs (app.py lines 58-99). The guard at
line 62 is Python truthiness: None and the empty list both fail it, so a
cached empty batch is refetched even when fresh. -/
def fetchRandomLikedSongs (lib : Library) (st : CacheState) (now : Int)
    (rnd : Nat) (batchSize : Nat) : FetchResult :=
  match st.batch with
  | some b =>
    if b ≠ [] ∧ now - st.timestamp < 60 then
      { tracks := b, state := st, networkCalls := 0 }
    else refreshBatch lib now rnd batchSize
  | none => refreshBatch lib now rnd batchSize

/-- Embedding of the chunking loop of app.py lines 590-591:
for i in range(0, len(ids), 100): ids[i:i+100]. Python range(0, n, 100)
enumerates the (n + 99) / 100 indices i = 100 * j with 100 * j < n. -/
def appendCalls {α : Type} (ids : List α) : List (List α) :=
  (List.range ((ids.length + 99) / 100)).map
    fun j => (ids.drop (100 * j)).take 100

/-- Provider playlist operations that confirm_save_playlist can issue. The
delete constructor exists so that the absence of any rollback is expressible;
the source contains no playlist-deletion call. -/
inductive PlaylistOp where
  | create
  | addItems (chunk : List String)
  | delete
deriving DecidableEq, Repr

/-- Run the playlist_add_items loop (app.py lines 590-591) against a provider
that fails the append call of index failAt (none = all calls succeed).
Returns the chunks actually written to the remote playlist and whether the
loop completed. -/
def runAppends : List (List String) → Option Nat → List (List String) × Bool
  | [], _ => ([], true)
  | _ :: _, some 0 => ([], false)
  | c :: cs, some (n + 1) =>
    let rest := runAppends cs (some n)
    (c :: rest.1, rest.2)
  | c :: cs, none =>
    let rest := runAppends cs none
    (c :: rest.1, rest.2)

/-- Outcome of the confirm_save_playlist route: the success page, the
"No songs found to save." page, or the "Failed to create playlist" page
produced by the except branch. -/
inductive SaveResult where
  | success
  | noPending
  | failed
deriving DecidableEq, Repr

/-- Embedding of confirm_save_playlist (app.py lines 575-596). createOk tells
whether user_playlist_create succeeds; failAt injects a failure into the
append loop. Returns the route outcome, the session after the call, the
remote playlist (none = never created, some w = created with chunks w
written), and the trace of provider playlist operations issued. The session
key pending_ids is popped only on the success path (line 593). -/
def confirm_save_playlist (sess : Session) (createOk : Bool)
    (failAt : Option Nat) :
    SaveResult × Session × Option (List (List String)) × List PlaylistOp :=
  let ids := sess.pending_ids.getD []
  if ids = [] then (SaveResult.noPending, sess, none, [])
  else if createOk = false then
    (SaveResult.failed, sess, none, [PlaylistOp.create])
  else
    let chunks := appendCalls ids
    let run := runAppends chunks failAt
    let trace := PlaylistOp.create :: run.1.map PlaylistOp.addItems
    if run.2 then
      (SaveResult.success, { sess with pending_ids := none }, some run.1, trace)
    else
      (SaveResult.failed, sess, some run.1, trace)

/-- Outcome of the create_playlist route (app.py lines 558-573): either the
save form is rendered, or the "No previewed songs found." page. -/
inductive CreateRouteOutcome where
  | form
  | noPreview
deriving DecidableEq, Repr

/-- Embedding of the create_playlist route (app.py lines 558-573): copy
preview_ids into pending_ids and show the save form. preview_ids itself is
left in the session unchanged. -/
def create_playlist (sess : Session) : CreateRouteOutcome × Session :=
  let ids := sess.preview_ids.getD []
  if ids = [] then (CreateRouteOutcome.noPreview, sess)
  else (CreateRouteOutcome.form, { sess with pending_ids := some ids })

/-! Supporting lemmas about the sampler. -/

/-- Removing the element at a valid index and putting it back in front is a
permutation of the original list. -/
theorem perm_getD_cons_eraseIdx {α : Type} (l : List α) (i : Nat) (d : α)
    (h : i < l.length) :
    List.Perm l (l.getD i d :: l.eraseIdx i) := by
  have h2 : List.Perm (l.take i ++ (l[i] :: l.drop (i + 1)))
      (l[i] :: (l.take i ++ l.drop (i + 1))) := List.perm_middle
  rw [List.getD_eq_getElem l d h, List.eraseIdx_eq_take_drop_succ]
  have h1 : l.take i ++ (l[i] :: l.drop (i + 1)) = l := by
    rw [List.getElem_cons_drop, List.take_append_drop]
  rw [h1] at h2
  exact h2

/-- Length of a sample draw: min of the request and the pool size. -/
theorem length_sample {α : Type} (k : Nat) (pool : List α) (picks : List Nat) :
    (sample k pool picks).length = min k pool.length := by
  induction k generalizing pool picks with
  | zero => simp [sample]
  | succ k ih =>
    match pool with
    | [] => simp [sample]
    | a :: as =>
      simp only [sample, List.length_cons]
      rw [ih]
      have hi : picks.headD 0 % (as.length + 1) < (a :: as).length := by
        simp only [List.length_cons]
        exact Nat.mod_lt _ (Nat.succ_pos _)
      rw [List.length_eraseIdx_of_lt hi]
      simp only [List.length_cons]
      omega

/-- Every sample draw is a permutation of a sublist of the pool: elements are
drawn without replacement. -/
theorem sample_subperm {α : Type} (k : Nat) (pool : List α) (picks : List Nat) :
    List.Subperm (sample k pool picks) pool := by
  induction k generalizing pool picks with
  | zero => simp [sample]
  | succ k ih =>
    match pool with
    | [] => simp [sample]
    | a :: as =>
      have hlen : picks.headD 0 % (a :: as).length < (a :: as).length :=
        Nat.mod_lt _ (by simp)
      have hperm := perm_getD_cons_eraseIdx (a :: as)
        (picks.headD 0 % (a :: as).length) a hlen
      simp only [sample]
      have h1 := ih ((a :: as).eraseIdx (picks.headD 0 % (a :: as).length))
        picks.tail
      have h2 := (List.subperm_cons
        ((a :: as).getD (picks.headD 0 % (a :: as).length) a)).mpr h1
      exact h2.trans hperm.symm.subperm

/-- Sampled elements come from the pool. -/
theorem sample_subset {α : Type} (k : Nat) (pool : List α) (picks : List Nat) :
    sample k pool picks ⊆ pool :=
  (sample_subperm k pool picks).subset

/-- Pairwise facts survive a subpermutation when the relation is symmetric. -/
theorem subperm_pairwise {α : Type} {R : α → α → Prop}
    (hs : ∀ {x y : α}, R x y → R y x) {l₁ l₂ : List α}
    (hsub : List.Subperm l₁ l₂) (hp : List.Pairwise R l₂) :
    List.Pairwise R l₁ := by
  obtain ⟨l, hperm, hsl⟩ := hsub
  exact (List.Perm.pairwise_iff hs hperm).mp (List.Pairwise.sublist hsl hp)

/-- Tracks surviving deduplication carry keys outside the seen set. -/
theorem mem_dedupAux_not_seen (seen : List String) (l : List Track) (t : Track)
    (ht : t ∈ dedupAux seen l) : t.artists ∉ seen := by
  induction l generalizing seen with
  | nil => simp [dedupAux] at ht
  | cons s ts ih =>
    simp only [dedupAux] at ht
    by_cases h : s.artists ∈ seen
    · rw [if_pos h] at ht
      exact ih seen ht
    · rw [if_neg h] at ht
      rcases List.mem_cons.mp ht with h1 | h1
      · subst h1; exact h
      · intro hc
        exact (ih _ h1) (List.mem_cons_of_mem _ hc)

/-- Deduplicated pools have pairwise distinct artists strings. -/
theorem dedupAux_pairwise (seen : List String) (l : List Track) :
    List.Pairwise (fun a b : Track => a.artists ≠ b.artists)
      (dedupAux seen l) := by
  induction l generalizing seen with
  | nil => simp [dedupAux]
  | cons s ts ih =>
    simp only [dedupAux]
    by_cases h : s.artists ∈ seen
    · rw [if_pos h]; exact ih seen
    · rw [if_neg h]
      refine List.Pairwise.cons ?_ (ih _)
      intro t ht hc
      exact (mem_dedupAux_not_seen _ _ _ ht)
        (by rw [← hc]; exact List.mem_cons_self _ _)

/-- Deduplication keeps only tracks of the original pool. -/
theorem dedupAux_subset (seen : List String) (l : List Track) :
    dedupAux seen l ⊆ l := by
  induction l generalizing seen with
  | nil => simp [dedupAux]
  | cons s ts ih =>
    simp only [dedupAux]
    by_cases h : s.artists ∈ seen
    · rw [if_pos h]
      exact (ih seen).trans (List.subset_cons_self s ts)
    · rw [if_neg h]
      exact List.cons_subset_cons s (ih _)

/-! Supporting lemmas about the routes and the cache. -/

/-- Characterization of a rendered preview: the parsed size was non-negative
after capping, the pool was nonempty, and the selection is a sample of the
deduplicated pool. -/
theorem preview_shown_eq (sess : Session) (songs : List Track)
    (sizeForm : Option String) (picks : List Nat) (sel : List Track)
    (h : (preview sess songs sizeForm picks).1 = PreviewOutcome.shown sel) :
    ∃ size : Int, parseSize sizeForm = Except.ok size ∧ songs ≠ [] ∧
      ¬ min size ((dedupByArtists songs).length : Int) < 0 ∧
      sel = sample (min size ((dedupByArtists songs).length : Int)).toNat
        (dedupByArtists songs) picks := by
  cases hp : parseSize sizeForm with
  | error e => simp [preview, hp] at h
  | ok size =>
    by_cases hsongs : songs = []
    · simp [preview, hp, hsongs] at h
    · by_cases hk : min size ((dedupByArtists songs).length : Int) < 0
      · simp [preview, hp, hsongs, hk] at h
      · simp [preview, hp, hsongs, hk] at h
        exact ⟨size, rfl, hsongs, hk, h.symm⟩

/-- Behaviour of preview on a successfully parsed non-negative size: the
page is rendered with a sample of the deduplicated pool, and the session
records its ids under preview_ids. -/
theorem preview_shown_of_nonneg (sess : Session) (songs : List Track)
    (sizeForm : Option String) (picks : List Nat) (size : Int)
    (hp : parseSize sizeForm = Except.ok size) (hsongs : songs ≠ [])
    (hsize : 0 ≤ size) :
    (preview sess songs sizeForm picks).1 = PreviewOutcome.shown
      (sample (min size ((dedupByArtists songs).length : Int)).toNat
        (dedupByArtists songs) picks)
    ∧ (preview sess songs sizeForm picks).2 = { sess with
        preview_ids := some
          ((sample (min size ((dedupByArtists songs).length : Int)).toNat
            (dedupByArtists songs) picks).map Track.id) } := by
  have hk : ¬ min size ((dedupByArtists songs).length : Int) < 0 := by omega
  constructor
  · simp [preview, hp, hsongs, hk]
  · simp [preview, hp, hsongs, hk]

/-- Running the append loop with no injected failure writes every chunk. -/
theorem runAppends_none (chunks : List (List String)) :
    runAppends chunks none = (chunks, true) := by
  induction chunks with
  | nil => rfl
  | cons c cs ih => simp [runAppends, ih]

/-- Running the append loop with a failure at a valid index k writes exactly
the first k chunks and reports failure. -/
theorem runAppends_failAt (chunks : List (List String)) (k : Nat)
    (hk : k < chunks.length) :
    runAppends chunks (some k) = (chunks.take k, false) := by
  induction chunks generalizing k with
  | nil => simp at hk
  | cons c cs ih =>
    cases k with
    | zero => rfl
    | succ n =>
      simp only [runAppends, List.take_succ_cons]
      rw [ih n (by simpa using hk)]

/-- The track list returned by fetch_random_liked_songs always coincides with
the cached batch left in the globals after the call. -/
theorem fetch_state_batch (lib : Library) (st : CacheState) (now : Int)
    (rnd batchSize : Nat) :
    (fetchRandomLikedSongs lib st now rnd batchSize).state.batch =
      some (fetchRandomLikedSongs lib st now rnd batchSize).tracks := by
  obtain ⟨batch, ts⟩ := st
  cases batch with
  | none => rfl
  | some b =>
    by_cases hc : b ≠ [] ∧ now - ts < 60
    · simp [fetchRandomLikedSongs, hc]
    · simp only [fetchRandomLikedSongs]
      rw [if_neg (by simpa using hc)]
      rfl

/-- Join of the first n hundred-sized slices of a list is its first 100 * n
elements. -/
theorem join_slices {α : Type} (l : List α) (n : Nat) :
    ((List.range n).map fun j => (l.drop (100 * j)).take 100).flatten
      = l.take (100 * n) := by
  induction n with
  | zero => simp
  | succ n ih =>
    rw [List.range_succ, List.map_append, List.flatten_append, ih]
    simp [Nat.mul_succ, List.take_add]

/-- Every refresh issues at least the meta call. -/
theorem refreshBatch_calls (lib : Library) (now : Int) (rnd batchSize : Nat) :
    1 ≤ (refreshBatch lib now rnd batchSize).networkCalls := by
  simp only [refreshBatch]
  omega

/-- On a nonempty fresh cached batch, fetch_random_liked_songs is a pure
cache hit. -/
theorem fetch_cache_hit (lib : Library) (st : CacheState) (now : Int)
    (rnd batchSize : Nat) (b : List Track) (hb : st.batch = some b)
    (hne : b ≠ []) (hfresh : now - st.timestamp < 60) :
    fetchRandomLikedSongs lib st now rnd batchSize =
      { tracks := b, state := st, networkCalls := 0 } := by
  obtain ⟨batch, ts⟩ := st
  cases hb
  simp [fetchRandomLikedSongs, hne, hfresh]

/-- When no nonempty fresh cached batch exists, fetch_random_liked_songs
refreshes. -/
theorem fetch_cache_miss (lib : Library) (st : CacheState) (now : Int)
    (rnd batchSize : Nat)
    (h : ∀ b, st.batch = some b → ¬(b ≠ [] ∧ now - st.timestamp < 60)) :
    fetchRandomLikedSongs lib st now rnd batchSize =
      refreshBatch lib now rnd batchSize := by
  obtain ⟨batch, ts⟩ := st
  cases batch with
  | none => rfl
  | some b =>
    simp only [fetchRandomLikedSongs]
    rw [if_neg (by simpa using h b rfl)]

/-! Claim theorems. -/

/-- Claim C1, counterexample: two tracks whose artist_names sequences start
with the same primary artist "Ann" but join to different artists strings both
survive deduplication and are both returned by one preview selection, so a
selection can contain two tracks sharing the primary artist. -/
theorem c1_counterexample :
    (preview ⟨none, none⟩
      [mkTrack ⟨"i1", "n1", ["Ann"]⟩, mkTrack ⟨"i2", "n2", ["Ann", "Bob"]⟩]
      (some "2") [0, 0]).1
      = PreviewOutcome.shown
          [mkTrack ⟨"i1", "n1", ["Ann"]⟩, mkTrack ⟨"i2", "n2", ["Ann", "Bob"]⟩]
    ∧ primaryArtist ⟨"i1", "n1", ["Ann"]⟩ = primaryArtist ⟨"i2", "n2", ["Ann", "Bob"]⟩
    ∧ (⟨"i1", "n1", ["Ann"]⟩ : RawTrack).id ≠ (⟨"i2", "n2", ["Ann", "Bob"]⟩ : RawTrack).id := by
  refine ⟨by decide, by decide, by decide⟩

/-- Claim C1 (amended): no two tracks of a rendered preview selection share
the same comma-joined artists string; deduplication keyed by that string
(not by the primary artist) happens before the random draw. -/
theorem c1_selection_artists_pairwise_distinct (sess : Session)
    (songs : List Track) (sizeForm : Option String) (picks : List Nat)
    (sel : List Track)
    (h : (preview sess songs sizeForm picks).1 = PreviewOutcome.shown sel) :
    List.Pairwise (fun a b : Track => a.artists ≠ b.artists) sel := by
  obtain ⟨size, hp, hsongs, hk, hsel⟩ :=
    preview_shown_eq sess songs sizeForm picks sel h
  subst hsel
  exact subperm_pairwise (fun hxy => Ne.symm hxy)
    (sample_subperm _ _ _) (dedupAux_pairwise [] songs)

/-- Claim C1 witness: concrete preview run instantiating the theorem. -/
theorem c1_witness :
    List.Pairwise (fun a b : Track => a.artists ≠ b.artists)
      [mkTrack ⟨"i1", "n1", ["Ann"]⟩] :=
  c1_selection_artists_pairwise_distinct ⟨none, none⟩
    [mkTrack ⟨"i1", "n1", ["Ann"]⟩] (some "1") [] _ (by decide)

/-- Claim C2, counterexample: on a pool with one unique primary artist but
two distinct artists strings, a preview of requested size 2 returns 2 tracks,
not min(2, unique_artist_count) = 1. -/
theorem c2_counterexample :
    (preview ⟨none, none⟩
      [mkTrack ⟨"i1", "n1", ["Ann"]⟩, mkTrack ⟨"i2", "n2", ["Ann", "Bob"]⟩]
      (some "2") [0, 0]).1
      = PreviewOutcome.shown
          [mkTrack ⟨"i1", "n1", ["Ann"]⟩, mkTrack ⟨"i2", "n2", ["Ann", "Bob"]⟩]
    ∧ uniquePrimaryArtistCount
        [⟨"i1", "n1", ["Ann"]⟩, ⟨"i2", "n2", ["Ann", "Bob"]⟩] = 1
    ∧ [mkTrack ⟨"i1", "n1", ["Ann"]⟩, mkTrack ⟨"i2", "n2", ["Ann", "Bob"]⟩].length
        ≠ min 2 (uniquePrimaryArtistCount
            [⟨"i1", "n1", ["Ann"]⟩, ⟨"i2", "n2", ["Ann", "Bob"]⟩]) := by
  refine ⟨by decide, by decide, by decide⟩

/-- Claim C2 (amended): for a nonempty pool and parsed requested size s with
s at least 1, the preview renders a selection of length exactly
min(s, number of distinct artists-string keys of the pool); in particular a
pool of 3 tracks with 3 distinct artists strings and requested size 10 yields
all 3 tracks and no error. -/
theorem c2_selection_length (sess : Session) (songs : List Track)
    (sizeForm : Option String) (picks : List Nat) (size : Int)
    (hp : parseSize sizeForm = Except.ok size) (hsongs : songs ≠ [])
    (hsize : 1 ≤ size) :
    ∃ sel, (preview sess songs sizeForm picks).1 = PreviewOutcome.shown sel
      ∧ sel.length = min size.toNat (dedupByArtists songs).length := by
  obtain ⟨h1, _⟩ := preview_shown_of_nonneg sess songs sizeForm picks size hp
    hsongs (by omega)
  refine ⟨_, h1, ?_⟩
  rw [length_sample]
  omega

/-- Claim C2 witness: a pool with 3 distinct artists strings and requested
size 10 yields a selection of length min(10, 3) = 3. -/
theorem c2_witness :
    ∃ sel, (preview ⟨none, none⟩
        [⟨"a", "s1", "A"⟩, ⟨"b", "s2", "B"⟩, ⟨"c", "s3", "C"⟩]
        (some "10") []).1 = PreviewOutcome.shown sel
      ∧ sel.length = min (10 : Int).toNat
          (dedupByArtists
            [⟨"a", "s1", "A"⟩, ⟨"b", "s2", "B"⟩, ⟨"c", "s3", "C"⟩]).length :=
  c2_selection_length ⟨none, none⟩
    [⟨"a", "s1", "A"⟩, ⟨"b", "s2", "B"⟩, ⟨"c", "s3", "C"⟩]
    (some "10") [] 10 rfl (by decide) (by decide)

/-- Claim C3, counterexample: a submitted size of 0 is not corrected to 1
(the selection is empty on a one-track pool), and the non-numeric size "abc"
and the negative size "-1" make the preview raise instead of never failing. -/
theorem c3_counterexample :
    (preview ⟨none, none⟩ [⟨"a", "x", "A"⟩] (some "0") []).1
      = PreviewOutcome.shown []
    ∧ (preview ⟨none, none⟩ [⟨"a", "x", "A"⟩] (some "abc") []).1
      = PreviewOutcome.raised
    ∧ (preview ⟨none, none⟩ [⟨"a", "x", "A"⟩] (some "-1") []).1
      = PreviewOutcome.raised := by
  refine ⟨by decide, by decide, by decide⟩

/-- Claim C3 (amended): the preview route performs no correction of the
submitted size: a non-numeric size raises (ValueError from int), a negative
size raises (ValueError from random.sample), and a non-negative size is used
as submitted, the selection length being min(size, distinct artists keys). -/
theorem c3_size_not_clamped (sess : Session) (songs : List Track)
    (sizeForm : Option String) (picks : List Nat) (hsongs : songs ≠ []) :
    (parseSize sizeForm = Except.error () →
      (preview sess songs sizeForm picks).1 = PreviewOutcome.raised)
    ∧ (∀ size : Int, parseSize sizeForm = Except.ok size → size < 0 →
      (preview sess songs sizeForm picks).1 = PreviewOutcome.raised)
    ∧ (∀ size : Int, parseSize sizeForm = Except.ok size → 0 ≤ size →
      ∃ sel, (preview sess songs sizeForm picks).1 = PreviewOutcome.shown sel
        ∧ sel.length = min size.toNat (dedupByArtists songs).length) := by
  refine ⟨?_, ?_, ?_⟩
  · intro hp
    simp [preview, hp]
  · intro size hp hneg
    have hk : min size ((dedupByArtists songs).length : Int) < 0 := by omega
    simp [preview, hp, hsongs, hk]
  · intro size hp hnn
    obtain ⟨h1, _⟩ := preview_shown_of_nonneg sess songs sizeForm picks size hp
      hsongs hnn
    refine ⟨_, h1, ?_⟩
    rw [length_sample]
    omega

/-- Claim C3 witness: concrete run instantiating the non-negative branch. -/
theorem c3_witness :
    ∃ sel, (preview ⟨none, none⟩ [⟨"a", "x", "A"⟩] (some "5") []).1
        = PreviewOutcome.shown sel
      ∧ sel.length = min (5 : Int).toNat
          (dedupByArtists [⟨"a", "x", "A"⟩]).length :=
  (c3_size_not_clamped ⟨none, none⟩ [⟨"a", "x", "A"⟩] (some "5") []
    (by decide)).2.2 5 rfl (by decide)

/-- Claim C4, counterexample: a CachedBatch exists (the empty batch stored at
timestamp 0) and its age 0 is below 60 seconds, yet the call does not return
it with zero network calls: Python truthiness at app.py line 62 treats the
empty list as no cache, so a refresh is performed. -/
theorem c4_counterexample :
    (⟨some [], 0⟩ : CacheState).batch = some []
    ∧ ((0 : Int) - (⟨some [], 0⟩ : CacheState).timestamp < 60)
    ∧ (fetchRandomLikedSongs ⟨0, fun _ => none⟩ ⟨some [], 0⟩ 0 0
        500).networkCalls ≠ 0 := by
  refine ⟨rfl, by decide, ?_⟩
  have h := refreshBatch_calls ⟨0, fun _ => none⟩ 0 0 500
  have hm : fetchRandomLikedSongs ⟨0, fun _ => none⟩ ⟨some [], 0⟩ 0 0 500 =
      refreshBatch ⟨0, fun _ => none⟩ 0 0 500 := by
    simp [fetchRandomLikedSongs]
  rw [hm]
  omega

/-- Claim C4 (amended): fetch_random_liked_songs returns the stored batch
unchanged with zero network calls if and only if a NONEMPTY cached batch of
age below 60 seconds exists (the truthiness guard of app.py line 62 refetches
over an empty cached batch); any second call within 60 seconds of a call with
nonempty result returns the identical track list with zero network calls; and
once the age reaches 60 seconds the call performs at least one fresh fetch. -/
theorem c4_cache_ttl (lib : Library) (st : CacheState) (now : Int)
    (rnd batchSize : Nat) :
    ((fetchRandomLikedSongs lib st now rnd batchSize).networkCalls = 0 ↔
      ∃ b, st.batch = some b ∧ b ≠ [] ∧ now - st.timestamp < 60)
    ∧ (∀ b, st.batch = some b → b ≠ [] → now - st.timestamp < 60 →
        fetchRandomLikedSongs lib st now rnd batchSize =
          { tracks := b, state := st, networkCalls := 0 })
    ∧ (∀ (lib2 : Library) (now2 : Int) (rnd2 bs2 : Nat),
        (fetchRandomLikedSongs lib st now rnd batchSize).tracks ≠ [] →
        now2 - (fetchRandomLikedSongs lib st now rnd batchSize).state.timestamp
            < 60 →
        fetchRandomLikedSongs lib2
            (fetchRandomLikedSongs lib st now rnd batchSize).state now2 rnd2
            bs2 =
          { tracks := (fetchRandomLikedSongs lib st now rnd batchSize).tracks
            state := (fetchRandomLikedSongs lib st now rnd batchSize).state
            networkCalls := 0 })
    ∧ (60 ≤ now - st.timestamp →
        1 ≤ (fetchRandomLikedSongs lib st now rnd batchSize).networkCalls) := by
  refine ⟨⟨?_, ?_⟩, ?_, ?_, ?_⟩
  · intro h0
    by_cases hc : ∃ b, st.batch = some b ∧ b ≠ [] ∧ now - st.timestamp < 60
    · exact hc
    · exfalso
      push_neg at hc
      have hm := fetch_cache_miss lib st now rnd batchSize (by
        intro b hb hand
        have := hc b hb hand.1
        omega)
      have h1 := refreshBatch_calls lib now rnd batchSize
      rw [hm] at h0
      omega
  · rintro ⟨b, hb, hne, hfresh⟩
    rw [fetch_cache_hit lib st now rnd batchSize b hb hne hfresh]
  · intro b hb hne hfresh
    exact fetch_cache_hit lib st now rnd batchSize b hb hne hfresh
  · intro lib2 now2 rnd2 bs2 hne hfresh
    exact fetch_cache_hit lib2 _ now2 rnd2 bs2 _
      (fetch_state_batch lib st now rnd batchSize) hne hfresh
  · intro hold
    have hm := fetch_cache_miss lib st now rnd batchSize (by
      intro b hb hand
      omega)
    have h1 := refreshBatch_calls lib now rnd batchSize
    rw [hm]
    exact h1

/-- Claim C4 witness: a fresh nonempty cached batch is returned unchanged
with zero network calls. -/
theorem c4_witness :
    fetchRandomLikedSongs ⟨0, fun _ => none⟩
        ⟨some [⟨"a", "x", "A"⟩], 0⟩ 10 0 500 =
      { tracks := [⟨"a", "x", "A"⟩], state := ⟨some [⟨"a", "x", "A"⟩], 0⟩,
        networkCalls := 0 } :=
  (c4_cache_ttl ⟨0, fun _ => none⟩ ⟨some [⟨"a", "x", "A"⟩], 0⟩ 10 0 500).2.1
    [⟨"a", "x", "A"⟩] rfl (by decide) (by decide)

/-- Claim C5: on a refresh the fetch offset is 0 whenever the library size is
at most the window (including N = 400, window = 500), and otherwise equals
the randint draw, which ranges over exactly the inclusive integer interval
from 0 to N - window (for N = 10000, window = 500 this is 0..9500): every
drawn value in range is used as-is and every offset in range is attainable. -/
theorem c5_offset_choice (total batchSize rnd : Nat) :
    ((total ≤ batchSize ∨ total = 0) →
      (chooseOffsetLimit total batchSize rnd).1 = 0)
    ∧ (batchSize < total → rnd ≤ total - batchSize →
      (chooseOffsetLimit total batchSize rnd).1 = rnd ∧
      (chooseOffsetLimit total batchSize rnd).1 ≤ total - batchSize)
    ∧ (batchSize < total → ∀ v, v ≤ total - batchSize →
      (chooseOffsetLimit total batchSize v).1 = v) := by
  refine ⟨?_, ?_, ?_⟩
  · intro h
    simp [chooseOffsetLimit, h]
  · intro h1 h2
    have hn : ¬(total ≤ batchSize ∨ total = 0) := by omega
    simp [chooseOffsetLimit, hn]
    exact h2
  · intro h1 v hv
    have hn : ¬(total ≤ batchSize ∨ total = 0) := by omega
    simp [chooseOffsetLimit, hn]

/-- Claim C5 witness: for N = 400 the offset is always 0; for N = 10000 the
offset equals the draw 1234 and stays within 0..9500. -/
theorem c5_witness :
    (chooseOffsetLimit 400 500 7).1 = 0
    ∧ (chooseOffsetLimit 10000 500 1234).1 = 1234
    ∧ (chooseOffsetLimit 10000 500 1234).1 ≤ 9500
    ∧ (chooseOffsetLimit 10000 500 9500).1 = 9500 :=
  ⟨(c5_offset_choice 400 500 7).1 (by omega),
   ((c5_offset_choice 10000 500 1234).2.1 (by omega) (by omega)).1,
   ((c5_offset_choice 10000 500 1234).2.1 (by omega) (by omega)).2,
   (c5_offset_choice 10000 500 9500).2.2 (by omega) 9500 (by omega)⟩

/-- Claim C6: the playlist writer appends the ids in consecutive chunks of at
most 100, issuing exactly the ceiling of k over 100 append calls in index
order (their concatenation in call order is the original id sequence), and
for k = 250 the three calls have sizes 100, 100, 50 in that order. -/
theorem c6_append_chunking (ids : List String) :
    (appendCalls ids).length = (ids.length + 99) / 100
    ∧ (∀ c ∈ appendCalls ids, c.length ≤ 100)
    ∧ (appendCalls ids).flatten = ids
    ∧ (ids.length = 250 →
        (appendCalls ids).map List.length = [100, 100, 50]) := by
  refine ⟨?_, ?_, ?_, ?_⟩
  · simp [appendCalls]
  · intro c hc
    simp only [appendCalls, List.mem_map, List.mem_range] at hc
    obtain ⟨j, _, hcj⟩ := hc
    rw [← hcj]
    exact List.length_take_le 100 _
  · rw [appendCalls, join_slices]
    apply List.take_of_length_le
    omega
  · intro h250
    have hmap : (appendCalls ids).map List.length =
        (List.range ((ids.length + 99) / 100)).map
          fun j => min 100 (ids.length - 100 * j) := by
      simp [appendCalls, List.map_map, Function.comp_def]
    rw [hmap, h250]
    decide

/-- Claim C6 witness: writing 250 concrete ids issues calls of sizes
100, 100, 50. -/
theorem c6_witness :
    (appendCalls (List.replicate 250 "x")).map List.length = [100, 100, 50] :=
  (c6_append_chunking (List.replicate 250 "x")).2.2.2
    (by rw [List.length_replicate])

/-- Claim C7: when the append call of index k fails after the k prior chunks
succeeded, the confirmed save fails (the except branch reports the failure)
but performs no rollback: the playlist remains on the remote service holding
exactly the first k chunks, and no delete operation is issued. -/
theorem c7_no_rollback (sess : Session) (ids : List String) (k : Nat)
    (hids : sess.pending_ids = some ids) (hne : ids ≠ [])
    (hk : k < (appendCalls ids).length) :
    (confirm_save_playlist sess true (some k)).1 = SaveResult.failed
    ∧ (confirm_save_playlist sess true (some k)).2.2.1 =
        some ((appendCalls ids).take k)
    ∧ PlaylistOp.delete ∉ (confirm_save_playlist sess true (some k)).2.2.2 := by
  have hrun := runAppends_failAt (appendCalls ids) k hk
  refine ⟨by simp [confirm_save_playlist, hids, hne, hrun],
    by simp [confirm_save_playlist, hids, hne, hrun], ?_⟩
  simp only [confirm_save_playlist, hids, Option.getD_some]
  rw [if_neg hne]
  simp [hrun]
  intro hmem
  have h2 := List.mem_of_mem_take hmem
  rw [List.mem_map] at h2
  obtain ⟨x, _, hx⟩ := h2
  exact PlaylistOp.noConfusion hx

/-- Claim C7 witness: 150 pending ids with the second append call failing
leave a remote playlist holding exactly the first chunk, no deletion. -/
theorem c7_witness :
    (confirm_save_playlist ⟨none, some (List.replicate 150 "t")⟩ true
        (some 1)).1 = SaveResult.failed
    ∧ (confirm_save_playlist ⟨none, some (List.replicate 150 "t")⟩ true
        (some 1)).2.2.1 =
        some ((appendCalls (List.replicate 150 "t")).take 1)
    ∧ PlaylistOp.delete ∉
        (confirm_save_playlist ⟨none, some (List.replicate 150 "t")⟩ true
          (some 1)).2.2.2 :=
  c7_no_rollback ⟨none, some (List.replicate 150 "t")⟩
    (List.replicate 150 "t") 1 rfl (by simp)
    (by simp [appendCalls])

/-- Claim C8: get_token fails NotAuthenticated with zero refresh calls when
no token is stored; with a stored token it performs exactly one refresh call
if and only if expires_at - now < 60; a rejected refresh fails RefreshFailed
after that single call (no retry), an accepted refresh returns and stores the
new token, and a token not near expiry is returned with zero refresh calls. -/
theorem c8_token_lifecycle (stored : Option TokenInfo) (now : Int)
    (refreshResult : Except Unit TokenInfo) :
    (stored = none →
      get_token stored now refreshResult =
        (Except.error AuthError.notAuthenticated, none, 0))
    ∧ (∀ t, stored = some t →
        ((get_token stored now refreshResult).2.2 = 1 ↔
          t.expires_at - now < 60))
    ∧ (∀ t, stored = some t → t.expires_at - now < 60 →
        refreshResult = Except.error () →
        get_token stored now refreshResult =
          (Except.error AuthError.refreshFailed, some t, 1))
    ∧ (∀ t r, stored = some t → t.expires_at - now < 60 →
        refreshResult = Except.ok r →
        get_token stored now refreshResult = (Except.ok r, some r, 1))
    ∧ (∀ t, stored = some t → ¬ t.expires_at - now < 60 →
        get_token stored now refreshResult = (Except.ok t, some t, 0)) := by
  refine ⟨?_, ?_, ?_, ?_, ?_⟩
  · rintro rfl
    rfl
  · rintro t rfl
    by_cases h : t.expires_at - now < 60
    · cases refreshResult <;>
        simp [get_token, token_info_needs_refresh, h]
    · simp [get_token, token_info_needs_refresh, h]
  · rintro t rfl h rfl
    simp [get_token, token_info_needs_refresh, h]
  · rintro t r rfl h rfl
    simp [get_token, token_info_needs_refresh, h]
  · rintro t rfl h
    simp [get_token, token_info_needs_refresh, h]

/-- Claim C8 witness: a token 10 seconds from expiry is refreshed by exactly
one accepted refresh call. -/
theorem c8_witness :
    get_token (some ⟨"at", "rt", 1000⟩) 990
        (Except.ok ⟨"at2", "rt2", 5000⟩) =
      (Except.ok ⟨"at2", "rt2", 5000⟩, some ⟨"at2", "rt2", 5000⟩, 1) :=
  (c8_token_lifecycle (some ⟨"at", "rt", 1000⟩) 990
    (Except.ok ⟨"at2", "rt2", 5000⟩)).2.2.2.1 ⟨"at", "rt", 1000⟩
    ⟨"at2", "rt2", 5000⟩ rfl (by decide) rfl

/-- Claim C9, counterexample: after a preview, the save form, and a fully
successful confirmed save, preview_ids still holds the previewed ids: the
route pops only pending_ids (app.py line 593), so the SelectionSession is not
cleared by a confirmed save. -/
theorem c9_counterexample :
    (confirm_save_playlist
        (create_playlist
          ((preview ⟨none, none⟩ [⟨"a", "x", "A"⟩] (some "1") []).2)).2
        true none).1 = SaveResult.success
    ∧ (confirm_save_playlist
        (create_playlist
          ((preview ⟨none, none⟩ [⟨"a", "x", "A"⟩] (some "1") []).2)).2
        true none).2.1.preview_ids = some ["a"] := by
  refine ⟨by decide, by decide⟩

/-- Claim C9 (amended): a rendered preview stores under preview_ids exactly
the ids of its selection, a subset of the ids of the pool it sampled (the
most recently produced cached batch: fetch_random_liked_songs always returns
the batch recorded in the cache state); a successful confirmed save clears
pending_ids, the copy made by the save-form route, while preview_ids is left
in the session unchanged. -/
theorem c9_selection_session (sess : Session) (songs : List Track)
    (sizeForm : Option String) (picks : List Nat) :
    (∀ sel, (preview sess songs sizeForm picks).1 = PreviewOutcome.shown sel →
      (preview sess songs sizeForm picks).2.preview_ids =
          some (sel.map Track.id)
      ∧ ∀ i ∈ sel.map Track.id, i ∈ songs.map Track.id)
    ∧ (∀ (lib : Library) (st : CacheState) (now : Int) (rnd bs : Nat),
        (fetchRandomLikedSongs lib st now rnd bs).state.batch =
          some (fetchRandomLikedSongs lib st now rnd bs).tracks)
    ∧ (∀ (s2 : Session) (createOk : Bool) (failAt : Option Nat),
        (confirm_save_playlist s2 createOk failAt).1 = SaveResult.success →
        (confirm_save_playlist s2 createOk failAt).2.1.pending_ids = none
        ∧ (confirm_save_playlist s2 createOk failAt).2.1.preview_ids =
            s2.preview_ids) := by
  refine ⟨?_, ?_, ?_⟩
  · intro sel hshown
    obtain ⟨size, hp, hsongs, hk, hsel⟩ :=
      preview_shown_eq sess songs sizeForm picks sel hshown
    have hsize : 0 ≤ size := by
      by_contra hneg
      apply hk
      have : (0 : Int) ≤ (dedupByArtists songs).length := Int.ofNat_nonneg _
      omega
    obtain ⟨h1, h2⟩ := preview_shown_of_nonneg sess songs sizeForm picks size
      hp hsongs hsize
    constructor
    · rw [h2, ← hsel]
    · intro i hi
      rw [List.mem_map] at hi ⊢
      obtain ⟨t, ht, hti⟩ := hi
      refine ⟨t, ?_, hti⟩
      rw [hsel] at ht
      exact dedupAux_subset [] songs (sample_subset _ _ _ ht)
  · intro lib st now rnd bs
    exact fetch_state_batch lib st now rnd bs
  · intro s2 createOk failAt hsucc
    by_cases hids : s2.pending_ids.getD [] = []
    · simp [confirm_save_playlist, hids] at hsucc
    · by_cases hco : createOk = false
      · simp [confirm_save_playlist, hids, hco] at hsucc
      · by_cases hrun : (runAppends (appendCalls (s2.pending_ids.getD []))
            failAt).2 = true
        · constructor <;> simp [confirm_save_playlist, hids, hco, hrun]
        · simp [confirm_save_playlist, hids, hco, hrun] at hsucc

/-- Claim C9 witness: concrete successful save clearing pending_ids and
keeping preview_ids. -/
theorem c9_witness :
    (confirm_save_playlist ⟨some ["a"], some ["a"]⟩ true
        none).2.1.pending_ids = none
    ∧ (confirm_save_playlist ⟨some ["a"], some ["a"]⟩ true
        none).2.1.preview_ids =
        (⟨some ["a"], some ["a"]⟩ : Session).preview_ids :=
  (c9_selection_session ⟨none, none⟩ [] none []).2.2
    ⟨some ["a"], some ["a"]⟩ true none (by decide)

/-- Claim C10: whenever a confirmed save does not succeed (creation failure,
append failure, or nothing pending), the session is left entirely unchanged,
so pending_ids survives for a retry; pending_ids is removed exactly on a
successful save. -/
theorem c10_pending_preserved (sess : Session) (createOk : Bool)
    (failAt : Option Nat) :
    ((confirm_save_playlist sess createOk failAt).1 ≠ SaveResult.success →
      (confirm_save_playlist sess createOk failAt).2.1 = sess)
    ∧ ((confirm_save_playlist sess createOk failAt).1 = SaveResult.success →
      (confirm_save_playlist sess createOk failAt).2.1.pending_ids = none) := by
  by_cases hids : sess.pending_ids.getD [] = []
  · constructor
    · intro _
      simp [confirm_save_playlist, hids]
    · intro hsucc
      simp [confirm_save_playlist, hids] at hsucc
  · by_cases hco : createOk = false
    · constructor
      · intro _
        simp [confirm_save_playlist, hids, hco]
      · intro hsucc
        simp [confirm_save_playlist, hids, hco] at hsucc
    · by_cases hrun : (runAppends (appendCalls (sess.pending_ids.getD []))
          failAt).2 = true
      · constructor
        · intro hns
          exfalso
          apply hns
          simp [confirm_save_playlist, hids, hco, hrun]
        · intro _
          simp [confirm_save_playlist, hids, hco, hrun]
      · constructor
        · intro _
          simp [confirm_save_playlist, hids, hco, hrun]
        · intro hsucc
          simp [confirm_save_playlist, hids, hco, hrun] at hsucc

/-- Claim C10 witness: a failed creation leaves the session unchanged. -/
theorem c10_witness :
    (confirm_save_playlist ⟨none, some ["a"]⟩ false none).2.1 =
      (⟨none, some ["a"]⟩ : Session) :=
  (c10_pending_preserved ⟨none, some ["a"]⟩ false none).1 (by decide)
